import Mathlib

/-!
Verification of the FlintDB Python cffi binding (`flintdb_cffi.py`) against its
specification.  The binding wraps an engine exposed through C functions whose
observable responses are an error descriptor (`char **e`, modelled as
`Option String`: `none` = the pointer was left NULL) together with a return
value.  Each Python wrapper is embedded as a pure function from the engine's
response to the wrapper's outcome: a normal return or a raised `FlintDBError`.
Engine-side behavior that is not part of the repository sources is modelled
from the specification and marked as such in its doc comment.
-/

namespace FlintDB

/-- Outcome of a Python call: a normal return of a value, or a raised
`FlintDBError` carrying the message string. -/
inductive PyOutcome (α : Type) where
  | ok : α → PyOutcome α
  | exn : String → PyOutcome α
deriving DecidableEq, Repr

/-- Sequencing of binding steps, mirroring straight-line Python code where an
earlier raise aborts the rest of the body. -/
def PyOutcome.bind {α β : Type} : PyOutcome α → (α → PyOutcome β) → PyOutcome β
  | .ok a, f => f a
  | .exn m, _ => .exn m

/-- Whether the call raised `FlintDBError`. -/
def PyOutcome.raises {α : Type} : PyOutcome α → Bool
  | .ok _ => false
  | .exn _ => true

/-- The engine error channel: contents of the `char **` out-parameter after an
engine call.  `none` models a NULL pointer (no error), `some m` a message. -/
abbrev ErrChannel := Option String

/-- `_raise_if_err` (flintdb_cffi.py:334-337): raises `FlintDBError` with the
decoded message exactly when the error descriptor is non-NULL. -/
def raise_if_err (err : ErrChannel) : PyOutcome Unit :=
  match err with
  | some m => .exn m
  | none => .ok ()

/-- Abstract engine-side pointer identity; `Option Ptr` models a possibly NULL
C pointer, with `none` as NULL. -/
abbrev Ptr := Nat

/-- Abstract engine-side row pointer. -/
abbrev RowPtr := Nat

/-- Python `Row` handle state: `r` mirrors `self._r` (`none` once set to
`ffi.NULL`), `isOwned` mirrors `self._owned` (flintdb_cffi.py:415-443). -/
structure Row where
  r : Option RowPtr
  isOwned : Bool
deriving DecidableEq, Repr

/-- `Row.borrowed(ptr)` (flintdb_cffi.py:428-430): wraps an engine row pointer
without taking ownership. -/
def Row.borrowed (p : RowPtr) : Row := ⟨some p, false⟩

/-- `Row.owned(ptr)` (flintdb_cffi.py:432-434): wraps an engine row pointer and
takes ownership. -/
def Row.ownedRow (p : RowPtr) : Row := ⟨some p, true⟩

/-- `Row.close` (flintdb_cffi.py:477-480): invokes the engine-side
`free` only when the pointer is non-NULL and the handle is owned, then always
nulls the pointer.  Returns the updated handle and whether `free` ran. -/
def Row.close (row : Row) : Row × Bool :=
  ({ row with r := none }, row.r.isSome && row.isOwned)

/-- `Row.set_string` (flintdb_cffi.py:445-448): engine setter call followed by
the error-channel check. -/
def Row.set_string (err : ErrChannel) : PyOutcome Unit :=
  (raise_if_err err).bind fun _ => .ok ()

/-- `Row.set_i32` (flintdb_cffi.py:450-453). -/
def Row.set_i32 (err : ErrChannel) : PyOutcome Unit :=
  (raise_if_err err).bind fun _ => .ok ()

/-- `Row.set_i64` (flintdb_cffi.py:455-458). -/
def Row.set_i64 (err : ErrChannel) : PyOutcome Unit :=
  (raise_if_err err).bind fun _ => .ok ()

/-- `Row.set_f64` (flintdb_cffi.py:460-463). -/
def Row.set_f64 (err : ErrChannel) : PyOutcome Unit :=
  (raise_if_err err).bind fun _ => .ok ()

/-- `Row.get_i32` (flintdb_cffi.py:465-469): engine getter returning `v`, then
the error-channel check, then `int(v)`. -/
def Row.get_i32 (err : ErrChannel) (v : Int) : PyOutcome Int :=
  (raise_if_err err).bind fun _ => .ok v

/-- `Row.validate` (flintdb_cffi.py:471-475): calls the engine `validate`
vtable entry, checks the error channel (raising if set), then returns the
engine's boolean result. -/
def Row.validate (err : ErrChannel) (ok : Bool) : PyOutcome Bool :=
  (raise_if_err err).bind fun _ => .ok ok

/-- `Meta.add_column` (flintdb_cffi.py:353-375): one engine call followed by
the error-channel check; no other failure path. -/
def Meta.add_column (err : ErrChannel) : PyOutcome Unit :=
  (raise_if_err err).bind fun _ => .ok ()

/-- `MAX_COLUMN_NAME_LIMIT` (flintdb_cffi.py:326). -/
def MAX_COLUMN_NAME_LIMIT : Nat := 40

/-- One slot of the key-name array built by `Meta.add_index`
(flintdb_cffi.py:377-384): a zero-initialized `char[40]` into which
`ffi.memmove` copies the first `min(len(kb), MAX_COLUMN_NAME_LIMIT - 1)`
bytes of the encoded key name `kb`. -/
def keySlot (kb : List Nat) : List Nat :=
  let n := min kb.length (MAX_COLUMN_NAME_LIMIT - 1)
  kb.take n ++ List.replicate (MAX_COLUMN_NAME_LIMIT - n) 0

/-- `Meta.add_index` (flintdb_cffi.py:377-389): builds the fixed-width key-name
array (one `keySlot` per key, in order), calls the engine, and checks the
error channel.  The built array is the observable value passed to the engine. -/
def Meta.add_index (keys : List (List Nat)) (err : ErrChannel) :
    PyOutcome (List (List Nat)) :=
  let keys_arr := keys.map keySlot
  (raise_if_err err).bind fun _ => .ok keys_arr

/-- `Table.apply` (flintdb_cffi.py:562-568): engine `apply` returns `rowid`
with the error channel; the wrapper raises on a set error channel, raises
`"apply returned < 0"` on a negative rowid, and otherwise returns the rowid. -/
def Table.apply (err : ErrChannel) (rowid : Int) : PyOutcome Int :=
  (raise_if_err err).bind fun _ =>
    if rowid < 0 then .exn "apply returned < 0" else .ok rowid

/-- `Table.delete_at` (flintdb_cffi.py:570-574): error-channel check, then the
engine's return value is passed through. -/
def Table.delete_at (err : ErrChannel) (r : Int) : PyOutcome Int :=
  (raise_if_err err).bind fun _ => .ok r

/-- `Table.find` (flintdb_cffi.py:576-582): error-channel check, then a NULL
cursor raises `"find returned NULL"`, otherwise the cursor is wrapped. -/
def Table.find (err : ErrChannel) (c : Option Ptr) : PyOutcome Ptr :=
  (raise_if_err err).bind fun _ =>
    match c with
    | none => .exn "find returned NULL"
    | some p => .ok p

/-- `Table.read` (flintdb_cffi.py:584-590): error-channel check, then a NULL
row raises `"read returned NULL"`, otherwise the row is wrapped BORROWED. -/
def Table.read (err : ErrChannel) (r : Option RowPtr) : PyOutcome Row :=
  (raise_if_err err).bind fun _ =>
    match r with
    | none => .exn "read returned NULL"
    | some p => .ok (Row.borrowed p)

/-- `GenericFile.write` (flintdb_cffi.py:617-621): error-channel check, then
the engine's running row count is passed through. -/
def GenericFile.write (err : ErrChannel) (n : Int) : PyOutcome Int :=
  (raise_if_err err).bind fun _ => .ok n

/-- `FileSort.add` (flintdb_cffi.py:655-659): error-channel check, then the
engine's running count is passed through. -/
def FileSort.add (err : ErrChannel) (n : Int) : PyOutcome Int :=
  (raise_if_err err).bind fun _ => .ok n

/-- `FileSort.sort` (flintdb_cffi.py:672-683): error-channel check after the
engine sort, then the engine's return value is passed through. -/
def FileSort.sort (err : ErrChannel) (n : Int) : PyOutcome Int :=
  (raise_if_err err).bind fun _ => .ok n

/-- `FileSort.read` (flintdb_cffi.py:664-670): error-channel check, then a
NULL row raises `"filesort.read returned NULL"`, otherwise the row is wrapped
OWNED. -/
def FileSort.read (err : ErrChannel) (r : Option RowPtr) : PyOutcome Row :=
  (raise_if_err err).bind fun _ =>
    match r with
    | none => .exn "filesort.read returned NULL"
    | some p => .ok (Row.ownedRow p)

/-- `Aggregate.row` (flintdb_cffi.py:793-797): engine fold call followed by
the error-channel check; no other failure path. -/
def Aggregate.row (err : ErrChannel) : PyOutcome Unit :=
  (raise_if_err err).bind fun _ => .ok ()

/-- `Aggregate.compute` (flintdb_cffi.py:799-813): after the error-channel
check, a non-positive count `n` or a NULL output array yields `[]` without
freeing anything; otherwise one OWNED `Row` is collected per non-NULL pointer
among the first `n` entries and the container array is freed once.  The
boolean records whether `free` ran on the container. -/
def Aggregate.compute (err : ErrChannel) (n : Int)
    (arr : Option (List (Option RowPtr))) : PyOutcome (List Row × Bool) :=
  (raise_if_err err).bind fun _ =>
    match arr with
    | none => .ok ([], false)
    | some ptrs =>
      if n ≤ 0 then .ok ([], false)
      else .ok (((ptrs.take n.toNat).filterMap id).map Row.ownedRow, true)

/-- `CursorI64.next` (flintdb_cffi.py:493-497): engine `next` returns a row id
with the error channel; the wrapper raises on a set channel and otherwise
passes the id through (negative sentinels included). -/
def CursorI64.next (err : ErrChannel) (v : Int) : PyOutcome Int :=
  (raise_if_err err).bind fun _ => .ok v

/-- One step of a Python `for` loop over an iterator: a yielded value, a
`StopIteration`, or a propagated `FlintDBError`. -/
inductive IterStep (α : Type) where
  | yield : α → IterStep α
  | stop : IterStep α
  | exn : String → IterStep α
deriving DecidableEq, Repr

/-- `CursorI64.__next__` (flintdb_cffi.py:507-511): calls `next`, raises
`StopIteration` when the result is negative, else yields it. -/
def CursorI64.nextStep (err : ErrChannel) (v : Int) : IterStep Int :=
  match CursorI64.next err v with
  | .exn m => .exn m
  | .ok w => if w < 0 then .stop else .yield w

/-- `CursorRow.next` (flintdb_cffi.py:524-530): error-channel check, then a
NULL row maps to `None` and a non-NULL row is wrapped BORROWED. -/
def CursorRow.next (err : ErrChannel) (r : Option RowPtr) : PyOutcome (Option Row) :=
  (raise_if_err err).bind fun _ =>
    match r with
    | none => .ok none
    | some p => .ok (some (Row.borrowed p))

/-- `CursorRow.__next__` (flintdb_cffi.py:540-544): calls `next`, raises
`StopIteration` on `None`, else yields the borrowed row. -/
def CursorRow.nextStep (err : ErrChannel) (r : Option RowPtr) : IterStep Row :=
  match CursorRow.next err r with
  | .exn m => .exn m
  | .ok none => .stop
  | .ok (some row) => .yield row

/-- `CursorI64.close` (flintdb_cffi.py:499-502): when the handle pointer is
non-NULL, invokes the engine close and nulls the pointer; otherwise a no-op.
Returns the updated handle state and whether the engine close ran. -/
def CursorI64.close (c : Option Ptr) : Option Ptr × Bool :=
  match c with
  | some _ => (none, true)
  | none => (none, false)

/-- `CursorRow.close` (flintdb_cffi.py:532-535): same null-then-guard shape as
`CursorI64.close`. -/
def CursorRow.close (c : Option Ptr) : Option Ptr × Bool :=
  match c with
  | some _ => (none, true)
  | none => (none, false)

/-- `Table.close` (flintdb_cffi.py:592-595). -/
def Table.close (t : Option Ptr) : Option Ptr × Bool :=
  match t with
  | some _ => (none, true)
  | none => (none, false)

/-- `GenericFile.close` (flintdb_cffi.py:631-634). -/
def GenericFile.close (g : Option Ptr) : Option Ptr × Bool :=
  match g with
  | some _ => (none, true)
  | none => (none, false)

/-- `FileSort.close` (flintdb_cffi.py:685-688). -/
def FileSort.close (fs : Option Ptr) : Option Ptr × Bool :=
  match fs with
  | some _ => (none, true)
  | none => (none, false)

/-- `Meta.close` (flintdb_cffi.py:403-406): frees the engine meta once, then
nulls the pointer. -/
def Meta.close (m : Option Ptr) : Option Ptr × Bool :=
  match m with
  | some _ => (none, true)
  | none => (none, false)

/-- `Table.drop` (flintdb_cffi.py:597-599): calls `flintdb_table_drop` with a
NULL error pointer (`ffi.NULL`) and discards the integer return, so whatever
the engine would report on the error descriptor is never read; the wrapper
always returns normally. -/
def Table.drop (_engineReport : ErrChannel) : PyOutcome Unit :=
  .ok ()

/-- `GenericFile.drop` (flintdb_cffi.py:636-638): same shape as `Table.drop`,
calling `flintdb_genericfile_drop` with a NULL error pointer. -/
def GenericFile.drop (_engineReport : ErrChannel) : PyOutcome Unit :=
  .ok ()

/-- Python `GroupBy` handle state (flintdb_cffi.py:697-700): engine pointer
and the `_owned` flag. -/
structure GroupBy where
  gb : Option Ptr
  isOwned : Bool
deriving DecidableEq, Repr

/-- `GroupBy.close` (flintdb_cffi.py:702-705): frees and nulls only when the
handle is owned and the pointer is non-NULL; otherwise leaves the state
untouched.  Returns the updated handle and whether the engine free ran. -/
def GroupBy.close (g : GroupBy) : GroupBy × Bool :=
  if g.isOwned && g.gb.isSome then ({ g with gb := none }, true) else (g, false)

/-- Python `AggFunc` handle state (flintdb_cffi.py:708-711). -/
structure AggFunc where
  f : Option Ptr
  isOwned : Bool
deriving DecidableEq, Repr

/-- `AggFunc.close` (flintdb_cffi.py:713-716): same owned-and-non-NULL guard
as `GroupBy.close`. -/
def AggFunc.close (a : AggFunc) : AggFunc × Bool :=
  if a.isOwned && a.f.isSome then ({ a with f := none }, true) else (a, false)

/-- `Aggregate.build` (flintdb_cffi.py:765-791): fills the malloc'd pointer
arrays and clears `_owned` on every group-by and function handle BEFORE the
`aggregate_new` call; only then checks the error channel and the NULL-result
guard.  Returns the updated handle lists (the marking) together with the
outcome of the engine call. -/
def Aggregate.build (groupbys : List GroupBy) (funcs : List AggFunc)
    (err : ErrChannel) (agg : Option Ptr) :
    (List GroupBy × List AggFunc) × PyOutcome Ptr :=
  let gbs := groupbys.map fun g => { g with isOwned := false }
  let fns := funcs.map fun a => { a with isOwned := false }
  ((gbs, fns),
    (raise_if_err err).bind fun _ =>
      match agg with
      | none => .exn "aggregate_new returned NULL"
      | some p => .ok p)

/-- Modelled from the spec: the engine-side `flintdb_table.apply` is not under
`src/` (only the binding is).  Per §4.5, `apply(row, check_dup)` inserts a new
row assigning a fresh, monotonically increasing non-negative row id; when
`check_dup` is set and the row's primary key collides with an existing one it
fails with DuplicateKey on the error descriptor instead of silently
upserting.  The table state is the next id to assign and the primary keys
already present. -/
structure EngineTable where
  nextId : Nat
  pks : List String
deriving DecidableEq, Repr

/-- Modelled from the spec: one engine `apply` call — the error-descriptor /
row-id pair handed back to the binding, and the updated table state. -/
def engineApply (t : EngineTable) (pk : String) (check_dup : Bool) :
    (ErrChannel × Int) × EngineTable :=
  if check_dup && t.pks.contains pk then ((some "DuplicateKey", -1), t)
  else ((none, (t.nextId : Int)), ⟨t.nextId + 1, t.pks ++ [pk]⟩)

/-- The full Python `Table.apply` call against the spec-modelled engine:
engine call, then the binding wrapper on its response. -/
def tableApplyOp (t : EngineTable) (pk : String) (check_dup : Bool) :
    PyOutcome Int × EngineTable :=
  let ((e, rid), t') := engineApply t pk check_dup
  (Table.apply e rid, t')

/-- Modelled from the spec: the engine-side row `validate` is not under
`src/`.  Per §4.3 it returns false (not an exception) on the first not-null
violation or size overflow and exposes which column failed via the
out-of-band error channel — the `char **e` descriptor, the only out-of-band
channel in its C signature.  `violation` names the failing column when the
row is invalid. -/
def engineValidate (violation : Option String) : ErrChannel × Bool :=
  match violation with
  | some col => (some ("validation failed at column " ++ col), false)
  | none => (none, true)

/-- The full Python `Row.validate()` call against the spec-modelled engine. -/
def rowValidateOp (violation : Option String) : PyOutcome Bool :=
  let (e, ok) := engineValidate violation
  Row.validate e ok

/-- `tutorial_table_create`'s use of validate (tutorial.py:62-63): the caller
expects a boolean and raises `"Row validation failed"` itself when it is
false. -/
def tutorialValidateCheck (violation : Option String) : PyOutcome Unit :=
  (rowValidateOp violation).bind fun ok =>
    if ok then .ok () else .exn "Row validation failed"

/-- Modelled from the spec: the engine-side drop is not under `src/`.  Per §6
it removes all files constituting the table's/file's storage (data plus
indexes) when any exist, and reports NotFound on the error descriptor when
none exist.  Returns the error report and whether files were removed. -/
def engineDrop (filesExist : Bool) : ErrChannel × Bool :=
  if filesExist then (none, true) else (some "NotFound", false)

/-- Modelled from the spec: the engine-side ordinal-id cursor is not under
`src/`.  Per §4.4 the cursor yields its remaining row ids in order and, once
exhausted, repeated `next()` calls are a no-op yielding the negative terminal
sentinel again.  State: the remaining ids. -/
def engineNextI64 : List Int → Int × List Int
  | [] => (-1, [])
  | x :: xs => (x, xs)

/-- Modelled from the spec: the engine-side row cursor, likewise yielding its
remaining rows and then the NULL-row sentinel forever. -/
def engineNextRow : List RowPtr → Option RowPtr × List RowPtr
  | [] => (none, [])
  | p :: ps => (some p, ps)

/-- One `for`-loop step over a `CursorI64` backed by the spec-modelled engine
cursor (error-free): engine `next`, then the binding's `__next__`. -/
def cursorI64Step (st : List Int) : IterStep Int × List Int :=
  let (v, st') := engineNextI64 st
  (CursorI64.nextStep none v, st')

/-- One `for`-loop step over a `CursorRow` backed by the spec-modelled engine
cursor (error-free). -/
def cursorRowStep (st : List RowPtr) : IterStep Row × List RowPtr :=
  let (r, st') := engineNextRow st
  (CursorRow.nextStep none r, st')

/-- Modelled from the spec: the engine-side aggregate is not under `src/`.
Per §4.8 `row()` folds a row into the accumulator of its group key, creating
the group on first sight, and `compute()` emits exactly one output row per
distinct observed group key; with no rows ever folded the observed-group list
is empty and the emitted count is zero.  We track the distinct group keys in
first-seen order. -/
def aggFold (groups : List String) (k : String) : List String :=
  if groups.contains k then groups else groups ++ [k]

/-- Modelled from the spec: the count/array pair `compute` hands back to the
binding — one non-NULL output row pointer per observed group. -/
def engineCompute (groups : List String) (rowOf : String → RowPtr) :
    Int × Option (List (Option RowPtr)) :=
  ((groups.length : Int), some (groups.map fun k => some (rowOf k)))

/-! Helper lemmas shared by the claim theorems. -/

/-- A binding step that only checks the error channel and then returns raises
exactly when the channel is set. -/
theorem raises_of_err_then_ok {α : Type} (err : ErrChannel) (x : α) :
    ((raise_if_err err).bind fun _ => PyOutcome.ok x).raises = err.isSome := by
  cases err <;> rfl

/-- Claim C1 counterexample: with an empty error channel the binding can still
raise `FlintDBError` — `Table.apply` on a negative engine row id, and
`Table.find` / `Table.read` / `FileSort.read` on a NULL engine pointer —
contradicting "when the error channel is empty the operation returns normally
with no exception". -/
theorem c1_error_channel_counterexample :
    Table.apply none (-1) = .exn "apply returned < 0" ∧
    Table.find none none = .exn "find returned NULL" ∧
    Table.read none none = .exn "read returned NULL" ∧
    FileSort.read none none = .exn "filesort.read returned NULL" :=
  ⟨rfl, rfl, rfl, rfl⟩

/-- Claim C1 (amended): `Meta.add_column`, `Meta.add_index`,
`Table.delete_at`, `GenericFile.write`, `FileSort.add`, `FileSort.sort`,
`Aggregate.row`, `Aggregate.compute` and the `Row` setters/getters raise
`FlintDBError` exactly when the engine set the error descriptor;
`Table.apply`, `Table.find`, `Table.read` and `FileSort.read` raise exactly
when the error descriptor is set OR the engine returned its negative-row-id /
NULL sentinel. -/
theorem c1_error_channel_amended (err : ErrChannel) (rid r v n : Int)
    (ok : Bool) (c : Option Ptr) (rp : Option RowPtr)
    (keys : List (List Nat)) (arr : Option (List (Option RowPtr))) :
    (Meta.add_column err).raises = err.isSome ∧
    (Meta.add_index keys err).raises = err.isSome ∧
    (Table.delete_at err r).raises = err.isSome ∧
    (GenericFile.write err n).raises = err.isSome ∧
    (FileSort.add err n).raises = err.isSome ∧
    (FileSort.sort err n).raises = err.isSome ∧
    (Aggregate.row err).raises = err.isSome ∧
    (Aggregate.compute err v arr).raises = err.isSome ∧
    (Row.set_string err).raises = err.isSome ∧
    (Row.set_i32 err).raises = err.isSome ∧
    (Row.set_i64 err).raises = err.isSome ∧
    (Row.set_f64 err).raises = err.isSome ∧
    (Row.get_i32 err v).raises = err.isSome ∧
    (Row.validate err ok).raises = err.isSome ∧
    (Table.apply err rid).raises = (err.isSome || decide (rid < 0)) ∧
    (Table.find err c).raises = (err.isSome || c.isNone) ∧
    (Table.read err rp).raises = (err.isSome || rp.isNone) ∧
    (FileSort.read err rp).raises = (err.isSome || rp.isNone) := by
  refine ⟨raises_of_err_then_ok err (),
    raises_of_err_then_ok err (keys.map keySlot),
    raises_of_err_then_ok err r, raises_of_err_then_ok err n,
    raises_of_err_then_ok err n, raises_of_err_then_ok err n,
    raises_of_err_then_ok err (), ?_,
    raises_of_err_then_ok err (), raises_of_err_then_ok err (),
    raises_of_err_then_ok err (), raises_of_err_then_ok err (),
    raises_of_err_then_ok err v, raises_of_err_then_ok err ok,
    ?_, ?_, ?_, ?_⟩
  · cases err with
    | some m => rfl
    | none =>
      cases arr with
      | none => rfl
      | some ptrs =>
        by_cases h : v ≤ 0 <;>
          simp [Aggregate.compute, raise_if_err, PyOutcome.bind, PyOutcome.raises, h]
  · cases err with
    | some m => rfl
    | none =>
      by_cases h : rid < 0 <;>
        simp [Table.apply, raise_if_err, PyOutcome.bind, PyOutcome.raises, h]
  · cases err <;> cases c <;> rfl
  · cases err <;> cases rp <;> rfl
  · cases err <;> cases rp <;> rfl

/-- Claim C2: rows produced by `FileSort.read` and `Aggregate.compute` are
wrapped OWNED — their first `close()` invokes the engine free and a second
`close()` is a no-op — while rows produced by `Table.read` and
`CursorRow.next` are wrapped BORROWED and `close()` never invokes the engine
free. -/
theorem c2_row_ownership (p : RowPtr) (n : Int) (ptrs : List (Option RowPtr)) :
    FileSort.read none (some p) = .ok (Row.ownedRow p) ∧
    Aggregate.compute none n (some ptrs) =
      .ok (if n ≤ 0 then ([], false)
           else (((ptrs.take n.toNat).filterMap id).map Row.ownedRow, true)) ∧
    Table.read none (some p) = .ok (Row.borrowed p) ∧
    CursorRow.next none (some p) = .ok (some (Row.borrowed p)) ∧
    (Row.ownedRow p).close = (⟨none, true⟩, true) ∧
    ((Row.ownedRow p).close.1).close = (⟨none, true⟩, false) ∧
    (Row.borrowed p).close = (⟨none, false⟩, false) ∧
    ((Row.borrowed p).close.1).close = (⟨none, false⟩, false) := by
  refine ⟨rfl, ?_, rfl, rfl, rfl, rfl, rfl, rfl⟩
  simp only [Aggregate.compute, raise_if_err, PyOutcome.bind]
  split <;> simp [*]

/-- Claim C3: against the spec-modelled engine, `Table.apply(row, check_dup)`
assigns and returns a fresh non-negative row id; with `check_dup` set and a
primary-key collision it raises DuplicateKey and leaves the table unchanged
instead of upserting; and every normally-returned row id is non-negative (a
negative engine return raises instead of being returned). -/
theorem c3_apply_fresh_nonneg (t : EngineTable) (pk : String) (cd : Bool) :
    tableApplyOp t pk cd =
      (if cd && t.pks.contains pk then (.exn "DuplicateKey", t)
       else (.ok (t.nextId : Int), ⟨t.nextId + 1, t.pks ++ [pk]⟩)) ∧
    (∀ w : Int, (tableApplyOp t pk cd).1 = .ok w → 0 ≤ w) := by
  have hmain : tableApplyOp t pk cd =
      (if cd && t.pks.contains pk then (.exn "DuplicateKey", t)
       else (.ok (t.nextId : Int), ⟨t.nextId + 1, t.pks ++ [pk]⟩)) := by
    simp only [tableApplyOp, engineApply]
    by_cases h : (cd && t.pks.contains pk) = true
    · rw [if_pos h, if_pos h]
      rfl
    · rw [if_neg h, if_neg h]
      simp [Table.apply, raise_if_err, PyOutcome.bind,
        not_lt.mpr (Int.natCast_nonneg t.nextId)]
  refine ⟨hmain, fun w hw => ?_⟩
  rw [hmain] at hw
  by_cases h : (cd && t.pks.contains pk) = true
  · rw [if_pos h] at hw
    simp at hw
  · rw [if_neg h] at hw
    have hww : (t.nextId : Int) = w := by
      injection hw
    omega

/-- Claim C3 witness: applying the theorem to an empty table and key
`"Apple"` without duplicate checking yields the non-negative row id 0. -/
theorem c3_apply_fresh_nonneg_witness : (0 : Int) ≤ 0 :=
  (c3_apply_fresh_nonneg ⟨0, []⟩ "Apple" false).2 0 (by decide)

/-- Claim C4 (code bug): per the spec the engine's `validate` returns false
and names the failing column on the error descriptor; the binding's
`Row.validate` runs `_raise_if_err` on that descriptor, so on an invalid row
it RAISES `FlintDBError` instead of returning `False` — making
tutorial.py:62-63's `if not row.validate()` check unreachable (its
`"Row validation failed"` branch can never fire).  On a valid row it returns
`True` normally. -/
theorem c4_validate_raises_not_false :
    rowValidateOp (some "name") = .exn "validation failed at column name" ∧
    rowValidateOp (some "name") ≠ .ok false ∧
    tutorialValidateCheck (some "name") ≠ .exn "Row validation failed" ∧
    rowValidateOp none = .ok true := by
  refine ⟨rfl, ?_, ?_, rfl⟩ <;> decide

/-- Claim C5 counterexample: when no storage files exist the spec-modelled
engine reports NotFound on the error descriptor, yet `Table.drop` and
`GenericFile.drop` return normally — the binding passed a NULL error pointer,
so NotFound is never reported to the caller. -/
theorem c5_drop_counterexample :
    (engineDrop false).1 = some "NotFound" ∧
    Table.drop (engineDrop false).1 = .ok () ∧
    GenericFile.drop (engineDrop false).1 = .ok () :=
  ⟨rfl, rfl, rfl⟩

/-- Claim C5 (amended): the engine-side drop removes all files constituting
the storage when any exist and reports NotFound on its error descriptor when
none do, but the binding's `Table.drop` and `GenericFile.drop` invoke it with
a NULL error pointer, so the report is discarded and both always return
normally — NotFound is never raised to the Python caller. -/
theorem c5_drop_amended (filesExist : Bool) (e : ErrChannel) :
    (engineDrop filesExist).2 = filesExist ∧
    (engineDrop filesExist).1.isNone = filesExist ∧
    Table.drop e = .ok () ∧
    GenericFile.drop e = .ok () := by
  cases filesExist <;> exact ⟨rfl, rfl, rfl, rfl⟩

/-- Claim C6: a `CursorI64` loop stops exactly when the engine yields a
negative row id and never yields a negative id; a `CursorRow` loop maps the
NULL row to `None`, stops exactly then, and never yields a null row; and the
spec-modelled engine cursors, once exhausted, keep yielding the terminal
sentinel (`-1` / NULL) on every further `next()`. -/
theorem c6_cursor_iteration (v x : Int) (xs : List Int)
    (p : RowPtr) (ps : List RowPtr) (r : Option RowPtr) :
    CursorI64.nextStep none v = (if v < 0 then .stop else .yield v) ∧
    cursorI64Step [] = (.stop, []) ∧
    cursorI64Step (x :: xs) = ((if x < 0 then .stop else .yield x), xs) ∧
    engineNextI64 [] = (-1, []) ∧
    CursorRow.next none r = .ok (r.map Row.borrowed) ∧
    CursorRow.nextStep none none = .stop ∧
    CursorRow.nextStep none (some p) = .yield (Row.borrowed p) ∧
    cursorRowStep [] = (.stop, []) ∧
    cursorRowStep (p :: ps) = (.yield (Row.borrowed p), ps) ∧
    engineNextRow [] = (none, []) := by
  refine ⟨?_, rfl, ?_, rfl, ?_, rfl, rfl, rfl, rfl, rfl⟩
  · by_cases h : v < 0 <;>
      simp [CursorI64.nextStep, CursorI64.next, raise_if_err, PyOutcome.bind, h]
  · by_cases h : x < 0 <;>
      simp [cursorI64Step, engineNextI64, CursorI64.nextStep, CursorI64.next,
        raise_if_err, PyOutcome.bind, h]
  · cases r <;> rfl

/-- Claim C7: `close()` is idempotent on every handle type — after a first
`close()` the handle state is cleared and every further `close()` performs no
engine-side close/free, so the engine routine runs at most once per handle
(and on the first close exactly when the handle was live, for `Row` only when
it was also owned). -/
theorem c7_close_idempotent (c d t g fs m : Option Ptr) (row : Row) :
    CursorI64.close (CursorI64.close c).1 = (none, false) ∧
    CursorRow.close (CursorRow.close d).1 = (none, false) ∧
    Table.close (Table.close t).1 = (none, false) ∧
    GenericFile.close (GenericFile.close g).1 = (none, false) ∧
    FileSort.close (FileSort.close fs).1 = (none, false) ∧
    Meta.close (Meta.close m).1 = (none, false) ∧
    (Row.close (Row.close row).1).2 = false ∧
    (CursorI64.close c).2 = c.isSome ∧
    (CursorRow.close d).2 = d.isSome ∧
    (Table.close t).2 = t.isSome ∧
    (GenericFile.close g).2 = g.isSome ∧
    (FileSort.close fs).2 = fs.isSome ∧
    (Meta.close m).2 = m.isSome ∧
    (Row.close row).2 = (row.r.isSome && row.isOwned) := by
  refine ⟨?_, ?_, ?_, ?_, ?_, ?_, rfl, ?_, ?_, ?_, ?_, ?_, ?_, rfl⟩
  · cases c <;> rfl
  · cases d <;> rfl
  · cases t <;> rfl
  · cases g <;> rfl
  · cases fs <;> rfl
  · cases m <;> rfl
  · cases c <;> rfl
  · cases d <;> rfl
  · cases t <;> rfl
  · cases g <;> rfl
  · cases fs <;> rfl
  · cases m <;> rfl

/-- Claim C8 counterexample: with a positive reported count and a non-NULL
output array whose only entry is a NULL pointer, `Aggregate.compute` returns
the empty list — refuting "returns the empty list exactly when the engine
reports a non-positive output count or a null output array". -/
theorem c8_compute_counterexample :
    Aggregate.compute none 1 (some [none]) = .ok ([], true) ∧ (0 : Int) < 1 := by
  decide

/-- Claim C8 (amended): `compute()` returns the empty list whenever the
engine reports a non-positive count or a NULL output array (freeing
nothing); otherwise it returns one owned `Row` per non-NULL pointer among
the first `n` entries and frees the container array exactly once — which
also yields the empty list in the degenerate all-NULL-pointer case.  Against
the spec-modelled engine, no folded rows means zero observed groups, so the
reported count is 0 and `compute()` returns the empty list; with observed
groups it returns exactly one owned row per group. -/
theorem c8_compute_amended (n : Int) (ptrs : List (Option RowPtr))
    (groups : List String) (rowOf : String → RowPtr) :
    Aggregate.compute none n none = .ok ([], false) ∧
    (n ≤ 0 → Aggregate.compute none n (some ptrs) = .ok ([], false)) ∧
    (0 < n → Aggregate.compute none n (some ptrs) =
      .ok (((ptrs.take n.toNat).filterMap id).map Row.ownedRow, true)) ∧
    List.foldl aggFold [] ([] : List String) = [] ∧
    (engineCompute [] rowOf).1 = 0 ∧
    Aggregate.compute none (engineCompute [] rowOf).1 (engineCompute [] rowOf).2 =
      .ok ([], false) ∧
    (groups ≠ [] →
      Aggregate.compute none (engineCompute groups rowOf).1 (engineCompute groups rowOf).2 =
        .ok (groups.map (fun k => Row.ownedRow (rowOf k)), true)) := by
  refine ⟨rfl, ?_, ?_, rfl, rfl, rfl, ?_⟩
  · intro h
    simp only [Aggregate.compute, raise_if_err, PyOutcome.bind]
    rw [if_pos h]
  · intro h
    simp only [Aggregate.compute, raise_if_err, PyOutcome.bind]
    rw [if_neg (not_le.mpr h)]
  · intro hne
    have hlen : ¬ ((groups.length : Int) ≤ 0) := by
      have : 0 < groups.length := List.length_pos.mpr hne
      omega
    simp only [engineCompute, Aggregate.compute, raise_if_err, PyOutcome.bind]
    rw [if_neg hlen]
    simp only [Int.toNat_natCast, List.take_of_length_le (le_of_eq (List.length_map _ _)),
      List.filterMap_map, id_eq]
    have hx : List.filterMap (id ∘ fun k => some (rowOf k)) groups =
        List.map rowOf groups := by
      rw [show (id ∘ fun k => some (rowOf k)) = some ∘ rowOf from rfl,
        List.filterMap_eq_map]
    rw [hx, List.map_map]
    rfl

/-- Claim C8 witness: a concrete positive-count call with one NULL and one
non-NULL pointer, and a concrete two-group engine result. -/
theorem c8_compute_amended_witness :
    Aggregate.compute none 2 (some [some 5, none]) = .ok ([Row.ownedRow 5], true) ∧
    Aggregate.compute none (engineCompute ["Fruit", "Vegetable"] (fun k => k.length)).1
        (engineCompute ["Fruit", "Vegetable"] (fun k => k.length)).2 =
      .ok ([Row.ownedRow 5, Row.ownedRow 9], true) := by
  constructor
  · exact ((c8_compute_amended 2 [some 5, none] [] fun _ => 0).2.2.1
      (by decide)).trans (by decide)
  · exact ((c8_compute_amended 2 [] ["Fruit", "Vegetable"] fun k => k.length).2.2.2.2.2.2
      (by decide)).trans (by decide)

/-- Claim C9: `Aggregate.build` transfers ownership of its inputs — every
group-by and function handle comes out marked not-owned, regardless of
whether the engine `aggregate_new` call then fails, and `close()` on a
handle so marked never invokes the engine-side free. -/
theorem c9_build_marks_not_owned (gs : List GroupBy) (fs : List AggFunc)
    (err : ErrChannel) (agg : Option Ptr) :
    (Aggregate.build gs fs err agg).1 =
      (gs.map fun g => { g with isOwned := false },
       fs.map fun a => { a with isOwned := false }) ∧
    (∀ g ∈ (Aggregate.build gs fs err agg).1.1,
      g.isOwned = false ∧ GroupBy.close g = (g, false)) ∧
    (∀ a ∈ (Aggregate.build gs fs err agg).1.2,
      a.isOwned = false ∧ AggFunc.close a = (a, false)) := by
  refine ⟨rfl, ?_, ?_⟩
  · intro g hg
    simp only [Aggregate.build, List.mem_map] at hg
    obtain ⟨g', _, rfl⟩ := hg
    exact ⟨rfl, rfl⟩
  · intro a ha
    simp only [Aggregate.build, List.mem_map] at ha
    obtain ⟨a', _, rfl⟩ := ha
    exact ⟨rfl, rfl⟩

/-- Claim C9 witness: a build over one group-by and one function handle with
the engine call failing (NULL result) still leaves both marked not-owned,
and closing them frees nothing. -/
theorem c9_build_marks_not_owned_witness :
    GroupBy.close ⟨some 3, false⟩ = (⟨some 3, false⟩, false) ∧
    AggFunc.close ⟨some 4, false⟩ = (⟨some 4, false⟩, false) :=
  ⟨((c9_build_marks_not_owned [⟨some 3, true⟩] [⟨some 4, true⟩] none none).2.1
      ⟨some 3, false⟩ (by decide)).2,
   ((c9_build_marks_not_owned [⟨some 3, true⟩] [⟨some 4, true⟩] none none).2.2
      ⟨some 4, false⟩ (by decide)).2⟩

/-- Claim C10: each key-name slot built by `Meta.add_index` is exactly
`MAX_COLUMN_NAME_LIMIT` (40) bytes, at most 39 bytes of the name are copied
(never overrunning the slot), names of at most 39 bytes are NUL-padded to
the full width, longer names are truncated to their first 39 bytes plus the
zero-fill — silently: `Meta.add_index` raises only when the engine sets the
error descriptor, never for a long name. -/
theorem c10_keyslot_truncation (kb : List Nat) (keys : List (List Nat))
    (err : ErrChannel) :
    (keySlot kb).length = MAX_COLUMN_NAME_LIMIT ∧
    min kb.length (MAX_COLUMN_NAME_LIMIT - 1) ≤ MAX_COLUMN_NAME_LIMIT - 1 ∧
    (kb.length ≤ MAX_COLUMN_NAME_LIMIT - 1 →
      keySlot kb = kb ++ List.replicate (MAX_COLUMN_NAME_LIMIT - kb.length) 0) ∧
    (MAX_COLUMN_NAME_LIMIT - 1 < kb.length →
      keySlot kb = kb.take (MAX_COLUMN_NAME_LIMIT - 1) ++ [0]) ∧
    Meta.add_index keys none = .ok (keys.map keySlot) ∧
    (Meta.add_index keys err).raises = err.isSome := by
  refine ⟨?_, Nat.min_le_right _ _, ?_, ?_, rfl,
    raises_of_err_then_ok err (keys.map keySlot)⟩
  · simp only [keySlot, List.length_append, List.length_take,
      List.length_replicate, MAX_COLUMN_NAME_LIMIT]
    omega
  · intro h
    simp only [keySlot]
    rw [min_eq_left h, List.take_length]
  · intro h
    simp only [keySlot]
    rw [min_eq_right (le_of_lt h)]
    norm_num [MAX_COLUMN_NAME_LIMIT]

/-- Claim C10 witness: a 45-byte name is truncated to its first 39 bytes and
a 3-byte name is NUL-padded to 40 bytes. -/
theorem c10_keyslot_truncation_witness :
    keySlot (List.replicate 45 7) =
      (List.replicate 45 7).take (MAX_COLUMN_NAME_LIMIT - 1) ++ [0] ∧
    keySlot [1, 2, 3] = [1, 2, 3] ++ List.replicate 37 0 := by
  constructor
  · exact (c10_keyslot_truncation (List.replicate 45 7) [] none).2.2.2.1 (by decide)
  · exact ((c10_keyslot_truncation [1, 2, 3] [] none).2.2.1 (by decide)).trans
      (by decide)

end FlintDB
